import Mathlib

/-!
Shallow embedding of the `char_lcd_rgb_i2c` Rust driver (`src/lib.rs`).

The driver talks to an MCP23017 16-pin GPIO expander over I2C.  The expander
is the external collaborator: every call the driver makes into it
(`set_output_latch`, `set_direction`, `set_pull_up`) is observable.  We model
the driver state as a Lean structure mirroring the fields of
`CharLCDRGBI2C`, and each operation as a pure function returning an
`Outcome`: the updated state plus the trace of expander interactions, an
early-return error (`Err(LcdError::Other(..))`), or a panic (Rust
out-of-bounds indexing).  I2C transport errors come from the environment and
are outside the model; the sleeps are timing-only and carry no information.

Machine integers: `usize` and `u8` values are modelled as `Nat` with
explicit `% 256` where the source truncates (`as u8`) or where a `u8`
addition can wrap (release-profile semantics; a comment marks each spot).
Array indexing is modelled with `List.get?`, out of bounds mapping to
`Outcome.panic` exactly where the Rust `[row]` indexing panics.
-/

set_option autoImplicit false

namespace CharLcd

/-- Pin names of the MCP23017 expander, as in the `mcp230xx` crate's
`Mcp23017` enum (two 8-bit ports, A0–A7 and B0–B7). -/
inductive Mcp23017 where
  | A0 | A1 | A2 | A3 | A4 | A5 | A6 | A7
  | B0 | B1 | B2 | B3 | B4 | B5 | B6 | B7
deriving DecidableEq, Repr

/-- Logic level written to an expander pin (`Level` in the source). -/
inductive Level where
  | low | high
deriving DecidableEq, Repr

-- MCP23017 pin mappings (src/lib.rs lines 15-34)
def LCD_RS : Mcp23017 := Mcp23017.B7
def LCD_E : Mcp23017 := Mcp23017.B5
def LCD_D4 : Mcp23017 := Mcp23017.B4
def LCD_D5 : Mcp23017 := Mcp23017.B3
def LCD_D6 : Mcp23017 := Mcp23017.B2
def LCD_D7 : Mcp23017 := Mcp23017.B1
def LCD_RW : Mcp23017 := Mcp23017.B6
def RGB_RED : Mcp23017 := Mcp23017.A6
def RGB_GREEN : Mcp23017 := Mcp23017.A7
def RGB_BLUE : Mcp23017 := Mcp23017.B0
def LCD_BACKLIGHT : Mcp23017 := Mcp23017.A5
def BTN_LEFT : Mcp23017 := Mcp23017.A4
def BTN_UP : Mcp23017 := Mcp23017.A3
def BTN_DOWN : Mcp23017 := Mcp23017.A2
def BTN_RIGHT : Mcp23017 := Mcp23017.A1
def BTN_SELECT : Mcp23017 := Mcp23017.A0

-- LCD commands (src/lib.rs lines 37-44)
def LCD_CLEARDISPLAY : Nat := 0x01
def LCD_RETURNHOME : Nat := 0x02
def LCD_ENTRYMODESET : Nat := 0x04
def LCD_DISPLAYCONTROL : Nat := 0x08
def LCD_FUNCTIONSET : Nat := 0x20
def LCD_SETDDRAMADDR : Nat := 0x80

-- Entry flags (src/lib.rs lines 47-48)
def LCD_ENTRYLEFT : Nat := 0x02
def LCD_ENTRYSHIFTDECREMENT : Nat := 0x00

-- Control flags (src/lib.rs lines 51-55)
def LCD_DISPLAYON : Nat := 0x04
def LCD_CURSOROFF : Nat := 0x00
def LCD_BLINKOFF : Nat := 0x00

-- Function set flags (src/lib.rs lines 63-66)
def LCD_4BITMODE : Nat := 0x00
def LCD_2LINE : Nat := 0x08
def LCD_1LINE : Nat := 0x00
def LCD_5X8DOTS : Nat := 0x00

-- Direction constants (src/lib.rs lines 69-70)
def LEFT_TO_RIGHT : Nat := 0

/-- Row offset addresses for different LCD lines (src/lib.rs line 73):
`pub const LCD_ROW_OFFSETS: [u8; 4] = [0x00, 0x40, 0x14, 0x54];` -/
def LCD_ROW_OFFSETS : List Nat := [0x00, 0x40, 0x14, 0x54]

/-- One observable interaction with the MCP23017 expander.  `write8 v m`
records one call of the driver's `write8(v, m)` primitive (RS select plus
two nibble writes; its pin-level expansion is `write8pins` below);
`write4bits v` records a direct nibble write from the init handshake;
the remaining constructors are direct expander calls. -/
inductive Event where
  | write8 (value : Nat) (char_mode : Bool)
  | write4bits (value : Nat)
  | latch (pin : Mcp23017) (lvl : Level)
  | setDirection (pin : Mcp23017) (output : Bool)
  | setPullUp (pin : Mcp23017)
deriving DecidableEq, Repr

/-- Pin-level body of `pulse_enable` (src/lib.rs lines 258-266): enable low,
high, low (sleeps omitted — they carry no data). -/
def pulse_enable : List Event :=
  [Event.latch LCD_E Level.low, Event.latch LCD_E Level.high, Event.latch LCD_E Level.low]

/-- Pin-level body of `write4bits` (src/lib.rs lines 217-256): drive D4–D7
from bits 0x01–0x08 of `value`, then pulse enable. -/
def write4bits (value : Nat) : List Event :=
  [Event.latch LCD_D4 (if value &&& 0x01 > 0 then Level.high else Level.low),
   Event.latch LCD_D5 (if value &&& 0x02 > 0 then Level.high else Level.low),
   Event.latch LCD_D6 (if value &&& 0x04 > 0 then Level.high else Level.low),
   Event.latch LCD_D7 (if value &&& 0x08 > 0 then Level.high else Level.low)]
  ++ pulse_enable

/-- Pin-level body of `write8` (src/lib.rs lines 268-278): RS selects
data (high) or command (low), then high nibble, then low nibble. -/
def write8pins (value : Nat) (char_mode : Bool) : List Event :=
  Event.latch LCD_RS (if char_mode then Level.high else Level.low)
    :: (write4bits (value >>> 4) ++ write4bits (value &&& 0x0F))

/-- Refine a trace event to the expander-call granularity: a `write8` or
`write4bits` event expands into the latch sequence its source body performs. -/
def elabEvent : Event → List Event
  | Event.write8 v m => write8pins v m
  | Event.write4bits v => write4bits v
  | e => [e]

/-- Driver state: the fields of `CharLCDRGBI2C` (src/lib.rs lines 101-116).
The `mcp` handle is the event sink and is not part of the pure state; the
`rgb` field is the constant `[RGB_RED, RGB_GREEN, RGB_BLUE]` (set in `new`,
never reassigned) and is folded into `set_color`. -/
structure LCDState where
  columns : Nat
  lines : Nat
  backlight : Bool
  color_value : List Nat
  display_control : Nat
  display_mode : Nat
  display_function : Nat
  row : Nat
  column : Nat
  column_align : Bool
  message : String
  direction : Nat
deriving DecidableEq, Repr

/-- Result of one driver operation: success with new state and expander
trace, an early-return `Err` (state unchanged — `err` carries the caller's
state — with the trace emitted before the return, always `[]` here), or a
Rust panic (out-of-bounds index). -/
inductive Outcome where
  | ok (st : LCDState) (tr : List Event)
  | err (st : LCDState) (msg : String) (tr : List Event)
  | panic (tr : List Event)
deriving DecidableEq, Repr

/-- Sequence two operations, propagating errors and panics and
concatenating traces (the `?` operator in the source). -/
def Outcome.bind (o : Outcome) (f : LCDState → Outcome) : Outcome :=
  match o with
  | Outcome.ok st tr =>
      match f st with
      | Outcome.ok st' tr' => Outcome.ok st' (tr ++ tr')
      | Outcome.err st' m tr' => Outcome.err st' m (tr ++ tr')
      | Outcome.panic tr' => Outcome.panic (tr ++ tr')
  | e => e

/-- Trace component of an outcome. -/
def traceOf : Outcome → List Event
  | Outcome.ok _ tr => tr
  | Outcome.err _ _ tr => tr
  | Outcome.panic tr => tr

/-- Body of `write_command` (src/lib.rs lines 280-283): one `write8` with
`char_mode = false`. -/
def write_command (value : Nat) : List Event :=
  [Event.write8 value false]

/-- `clear` (src/lib.rs lines 285-291): clear-display command, then reset
tracked cursor to (0,0). -/
def clear (st : LCDState) : Outcome :=
  Outcome.ok { st with row := 0, column := 0 } (write_command LCD_CLEARDISPLAY)

/-- `home` (src/lib.rs lines 293-299): return-home command, then reset
tracked cursor to (0,0). -/
def home (st : LCDState) : Outcome :=
  Outcome.ok { st with row := 0, column := 0 } (write_command LCD_RETURNHOME)

/-- `set_color` (src/lib.rs lines 301-313): each channel pin is driven low
(on, common anode) exactly when its value is strictly greater than 1, else
high; then the triple is stored.  `self.rgb` is the constant
`[RGB_RED, RGB_GREEN, RGB_BLUE]` fixed in `new` and never reassigned. -/
def set_color (st : LCDState) (r g b : Nat) : Outcome :=
  Outcome.ok { st with color_value := [r, g, b] }
    [Event.latch RGB_RED (if r > 1 then Level.low else Level.high),
     Event.latch RGB_GREEN (if g > 1 then Level.low else Level.high),
     Event.latch RGB_BLUE (if b > 1 then Level.low else Level.high)]

/-- `set_cursor` (src/lib.rs lines 315-331), the strict variant: reject
`row >= lines` with `LcdError::Other` before any expander write; otherwise
index the local `row_offsets` table (panic when `row ≥ 4`, the Rust
out-of-bounds case) and issue one set-DDRAM-address command.  `col as u8`
truncates (`% 256`); the `u8` addition wraps on overflow (release-profile
semantics), hence the second `% 256`. -/
def set_cursor (st : LCDState) (col row : Nat) : Outcome :=
  let row_offsets : List Nat := [0x00, 0x40, 0x14, 0x54]
  if row ≥ st.lines then
    Outcome.err st
      ("Row " ++ toString row ++ " is invalid for a " ++ toString st.lines ++ "-line display")
      []
  else
    match row_offsets.get? row with
    | none => Outcome.panic []
    | some off =>
        Outcome.ok { st with row := row, column := col }
          (write_command (LCD_SETDDRAMADDR ||| ((col % 256 + off) % 256)))

/-- `set_backlight` (src/lib.rs lines 333-344): reconfigure the backlight
pin direction (output = on, input = off) and mirror the boolean (the
`println!` goes to stdout, not to the expander); `onFlag` is the source's
`on` parameter, renamed because `on` is reserved in Lean. -/
def set_backlight (st : LCDState) (onFlag : Bool) : Outcome :=
  if onFlag then
    Outcome.ok { st with backlight := true } [Event.setDirection LCD_BACKLIGHT true]
  else
    Outcome.ok { st with backlight := false } [Event.setDirection LCD_BACKLIGHT false]

/-- `cursor_position` (src/lib.rs lines 346-357), the clamping variant:
clamp `row` to `lines - 1` and `column` to `columns - 1` when out of range
(the `usize` subtraction underflows for a 0-line/0-column geometry — panic
in debug, wrap then index-panic on the `lines` path in release; the
truncated `Nat` subtraction used here only differs on those degenerate
geometries, which no theorem below relies on), then index
`LCD_ROW_OFFSETS` (panic when the clamped row is still ≥ 4) and issue one
set-DDRAM-address command; `column as u8` truncates and the `u8` addition
wraps, as in `set_cursor`. -/
def cursor_position (st : LCDState) (column row : Nat) : Outcome :=
  let row := if row ≥ st.lines then st.lines - 1 else row
  let column := if column ≥ st.columns then st.columns - 1 else column
  match LCD_ROW_OFFSETS.get? row with
  | none => Outcome.panic []
  | some off =>
      Outcome.ok { st with row := row, column := column }
        (write_command (LCD_SETDDRAMADDR ||| ((column % 256 + off) % 256)))

/-- Loop body of `message` (src/lib.rs lines 365-397) over the remaining
characters, carrying the local `line` and `initial_character` variables.
On the first character position the cursor at the entry-direction start
column; on each newline advance `line` and reposition; write every other
character as one data byte, `char as u8` truncating the code point
(`% 256`).  The right-to-left `columns - 1 - column` expressions use
truncated `Nat` subtraction (the Rust `usize` subtraction would underflow
only when `columns = 0` or `column ≥ columns`, on a branch shown below to
be unreachable from constructed drivers). -/
def messageLoop : LCDState → Nat → Nat → List Char → Outcome
  | st, _, _, [] => Outcome.ok st []
  | st, line, ic, c :: cs =>
    let pos0 : Outcome :=
      if ic = 0 then
        if st.display_mode &&& LCD_ENTRYLEFT > 0 then
          cursor_position st st.column line
        else
          cursor_position st (st.columns - 1 - st.column) line
      else Outcome.ok st []
    let ic1 := if ic = 0 then ic + 1 else ic
    Outcome.bind pos0 fun st1 =>
      if c = '\n' then
        Outcome.bind
          (cursor_position st1
            (if st1.display_mode &&& LCD_ENTRYLEFT > 0 then
               (if st1.column_align then st1.column else 0)
             else
               (if st1.column_align then st1.column else st1.columns - 1))
            (line + 1))
          (fun st2 => messageLoop st2 (line + 1) ic1 cs)
      else
        Outcome.bind (Outcome.ok st1 [Event.write8 (c.toNat % 256) true])
          (fun st2 => messageLoop st2 line ic1 cs)

/-- `message` (src/lib.rs lines 359-403): store the text, run the
character loop starting at the tracked row, then unconditionally reset the
tracked cursor to (0,0). -/
def message (st : LCDState) (s : String) : Outcome :=
  let st0 : LCDState := { st with message := s }
  Outcome.bind (messageLoop st0 st0.row 0 s.data) fun st1 =>
    Outcome.ok { st1 with column := 0, row := 0 } []

/-- Expander trace of `setup_pins` (src/lib.rs lines 150-168): LCD control
pins and RGB pins as outputs, button pins as inputs with pull-up. -/
def setup_pins_trace : List Event :=
  [Event.setDirection LCD_RS true, Event.setDirection LCD_E true,
   Event.setDirection LCD_D4 true, Event.setDirection LCD_D5 true,
   Event.setDirection LCD_D6 true, Event.setDirection LCD_D7 true,
   Event.setDirection LCD_RW true,
   Event.setDirection RGB_RED true, Event.setDirection RGB_GREEN true,
   Event.setDirection RGB_BLUE true,
   Event.setDirection BTN_LEFT false, Event.setPullUp BTN_LEFT,
   Event.setDirection BTN_UP false, Event.setPullUp BTN_UP,
   Event.setDirection BTN_DOWN false, Event.setPullUp BTN_DOWN,
   Event.setDirection BTN_RIGHT false, Event.setPullUp BTN_RIGHT,
   Event.setDirection BTN_SELECT false, Event.setPullUp BTN_SELECT]

/-- `initialize` (src/lib.rs lines 170-215): pull RS/E/RW low, run the
4-bit handshake (three 0x03 nibbles then 0x02), set the three flag fields,
write the three configuration commands, clear, reset tracking fields, and
turn all RGB channels off. -/
def initLcd (st : LCDState) : Outcome :=
  let st1 : LCDState :=
    { st with
        display_control := LCD_DISPLAYON ||| LCD_CURSOROFF ||| LCD_BLINKOFF,
        display_function := LCD_4BITMODE ||| LCD_1LINE ||| LCD_2LINE ||| LCD_5X8DOTS,
        display_mode := LCD_ENTRYLEFT ||| LCD_ENTRYSHIFTDECREMENT }
  let tr0 : List Event :=
    [Event.latch LCD_RS Level.low, Event.latch LCD_E Level.low, Event.latch LCD_RW Level.low,
     Event.write4bits 0x03, Event.write4bits 0x03, Event.write4bits 0x03, Event.write4bits 0x02]
    ++ write_command (LCD_DISPLAYCONTROL ||| st1.display_control)
    ++ write_command (LCD_FUNCTIONSET ||| st1.display_function)
    ++ write_command (LCD_ENTRYMODESET ||| st1.display_mode)
  Outcome.bind (Outcome.ok st1 tr0) fun st2 =>
  Outcome.bind (clear st2) fun st3 =>
  set_color
    { st3 with row := 0, column := 0, column_align := false,
               direction := LEFT_TO_RIGHT, message := "" }
    0 0 0

/-- `CharLCDRGBI2C::new(columns, lines)` (src/lib.rs lines 119-148), pure
part: build the initial field values, run `setup_pins`, run `initialize`.
The only fallible steps in the source are I2C/expander transport calls
(environment); `new` performs no validation of the requested geometry. -/
def new (columns lines : Nat) : Outcome :=
  let lcd : LCDState :=
    { columns := columns, lines := lines, backlight := true,
      color_value := [0, 0, 0], display_control := 0, display_mode := 0,
      display_function := 0, row := 0, column := 0, column_align := false,
      message := "", direction := 0 }
  Outcome.bind (Outcome.ok lcd setup_pins_trace) initLcd

/-- Driver state immediately after a successful `new columns lines`
(all field updates of the construction path applied). -/
def mkState (columns lines : Nat) : LCDState :=
  { columns := columns, lines := lines, backlight := true,
    color_value := [0, 0, 0], display_control := 4, display_mode := 2,
    display_function := 8, row := 0, column := 0, column_align := false,
    message := "", direction := 0 }

/-- Full expander trace of a successful construction. -/
def new_trace : List Event :=
  setup_pins_trace ++
  [Event.latch LCD_RS Level.low, Event.latch LCD_E Level.low, Event.latch LCD_RW Level.low,
   Event.write4bits 0x03, Event.write4bits 0x03, Event.write4bits 0x03, Event.write4bits 0x02,
   Event.write8 12 false, Event.write8 40 false, Event.write8 6 false,
   Event.write8 1 false,
   Event.latch RGB_RED Level.high, Event.latch RGB_GREEN Level.high,
   Event.latch RGB_BLUE Level.high]

/-- Data bytes (character writes) of a trace: the values of the `write8`
events issued with `char_mode = true`. -/
def dataBytes (tr : List Event) : List Nat :=
  tr.filterMap fun e =>
    match e with
    | Event.write8 v true => some v
    | _ => none

/-- Left-to-right-only rendition of the `message` loop, written from the
spec's description of `writeText` for left-to-right entry mode: the two
right-to-left column expressions of `messageLoop` are replaced by their
left-to-right counterparts (start at the tracked column; on newline go to
the tracked column when column-alignment is on, else to column 0).  Used
to state that the right-to-left branches of the source are never taken. -/
def messageLoopLTR : LCDState → Nat → Nat → List Char → Outcome
  | st, _, _, [] => Outcome.ok st []
  | st, line, ic, c :: cs =>
    let pos0 : Outcome :=
      if ic = 0 then cursor_position st st.column line else Outcome.ok st []
    let ic1 := if ic = 0 then ic + 1 else ic
    Outcome.bind pos0 fun st1 =>
      if c = '\n' then
        Outcome.bind
          (cursor_position st1 (if st1.column_align then st1.column else 0) (line + 1))
          (fun st2 => messageLoopLTR st2 (line + 1) ic1 cs)
      else
        Outcome.bind (Outcome.ok st1 [Event.write8 (c.toNat % 256) true])
          (fun st2 => messageLoopLTR st2 line ic1 cs)

/-- `message` with the left-to-right-only loop (see `messageLoopLTR`). -/
def messageLTR (st : LCDState) (s : String) : Outcome :=
  let st0 : LCDState := { st with message := s }
  Outcome.bind (messageLoopLTR st0 st0.row 0 s.data) fun st1 =>
    Outcome.ok { st1 with column := 0, row := 0 } []

/-- One invocation of a public driver operation. -/
inductive Op where
  | clearOp
  | homeOp
  | setColorOp (r g b : Nat)
  | setCursorOp (col row : Nat)
  | setBacklightOp (onFlag : Bool)
  | cursorPositionOp (col row : Nat)
  | messageOp (s : String)

/-- Apply one public driver operation to a state. -/
def applyOp (st : LCDState) : Op → Outcome
  | Op.clearOp => clear st
  | Op.homeOp => home st
  | Op.setColorOp r g b => set_color st r g b
  | Op.setCursorOp col row => set_cursor st col row
  | Op.setBacklightOp f => set_backlight st f
  | Op.cursorPositionOp col row => cursor_position st col row
  | Op.messageOp s => message st s

/-- Driver states reachable through the public interface: a successfully
constructed driver, closed under successful public operations. -/
inductive Reachable : LCDState → Prop
  | constructed (columns lines : Nat) (st : LCDState) (tr : List Event) :
      new columns lines = Outcome.ok st tr → Reachable st
  | step (st st' : LCDState) (op : Op) (tr : List Event) :
      Reachable st → applyOp st op = Outcome.ok st' tr → Reachable st'

theorem new_ok (columns lines : Nat) :
    new columns lines = Outcome.ok (mkState columns lines) new_trace := by
  simp [new, initLcd, Outcome.bind, clear, set_color, mkState, new_trace,
    setup_pins_trace, write_command, LCD_DISPLAYON, LCD_CURSOROFF, LCD_BLINKOFF,
    LCD_4BITMODE, LCD_1LINE, LCD_2LINE, LCD_5X8DOTS, LCD_ENTRYLEFT,
    LCD_ENTRYSHIFTDECREMENT, LCD_DISPLAYCONTROL, LCD_FUNCTIONSET,
    LCD_ENTRYMODESET, LCD_CLEARDISPLAY, LEFT_TO_RIGHT]

theorem dataBytes_append (a b : List Event) :
    dataBytes (a ++ b) = dataBytes a ++ dataBytes b :=
  List.filterMap_append a b _

theorem Outcome.bind_eq_ok (o : Outcome) (f : LCDState → Outcome) (st' : LCDState)
    (tr : List Event) (h : o.bind f = Outcome.ok st' tr) :
    ∃ st1 tr1 tr2, o = Outcome.ok st1 tr1 ∧ f st1 = Outcome.ok st' tr2 ∧ tr = tr1 ++ tr2 := by
  cases o with
  | ok st1 tr1 =>
    cases hf : f st1 with
    | ok st2 tr2 =>
      simp only [Outcome.bind, hf] at h
      rw [Outcome.ok.injEq] at h
      exact ⟨st1, tr1, tr2, rfl, by rw [hf, h.1], h.2.symm⟩
    | err st2 m2 tr2 =>
      simp only [Outcome.bind, hf] at h
      exact Outcome.noConfusion h
    | panic tr2 =>
      simp only [Outcome.bind, hf] at h
      exact Outcome.noConfusion h
  | err st1 m tr1 => exact Outcome.noConfusion h
  | panic tr1 => exact Outcome.noConfusion h

theorem Outcome.bind_eq_err (o : Outcome) (f : LCDState → Outcome) (st' : LCDState)
    (m : String) (tr : List Event) (h : o.bind f = Outcome.err st' m tr) :
    (∃ st1 tr1 tr2, o = Outcome.ok st1 tr1 ∧ f st1 = Outcome.err st' m tr2 ∧ tr = tr1 ++ tr2) ∨
    o = Outcome.err st' m tr := by
  cases o with
  | ok st1 tr1 =>
    left
    cases hf : f st1 with
    | ok st2 tr2 =>
      simp only [Outcome.bind, hf] at h
      exact Outcome.noConfusion h
    | err st2 m2 tr2 =>
      simp only [Outcome.bind, hf] at h
      rw [Outcome.err.injEq] at h
      exact ⟨st1, tr1, tr2, rfl, by rw [hf, h.1, h.2.1], h.2.2.symm⟩
    | panic tr2 =>
      simp only [Outcome.bind, hf] at h
      exact Outcome.noConfusion h
  | err st1 m1 tr1 => right; exact h
  | panic tr1 => exact Outcome.noConfusion h

theorem Outcome.bind_congr (P : Outcome) (f g : LCDState → Outcome)
    (h : ∀ st1 tr1, P = Outcome.ok st1 tr1 → f st1 = g st1) :
    P.bind f = P.bind g := by
  cases P with
  | ok st1 tr1 => simp only [Outcome.bind]; rw [h st1 tr1 rfl]
  | err st1 m tr1 => rfl
  | panic tr1 => rfl

theorem cursor_position_not_err (st : LCDState) (c r : Nat) (st' : LCDState)
    (m : String) (tr : List Event) : cursor_position st c r ≠ Outcome.err st' m tr := by
  simp only [cursor_position]
  split <;> simp

theorem cursor_position_ok_fields (st : LCDState) (c r : Nat) (st' : LCDState)
    (tr : List Event) (h : cursor_position st c r = Outcome.ok st' tr) :
    st'.display_mode = st.display_mode ∧ st'.column_align = st.column_align ∧
    st'.message = st.message ∧ dataBytes tr = [] := by
  simp only [cursor_position] at h
  split at h
  · exact Outcome.noConfusion h
  · rw [Outcome.ok.injEq] at h
    rw [← h.1, ← h.2]
    exact ⟨rfl, rfl, rfl, rfl⟩

theorem messageLoop_ok_inv (cs : List Char) :
    ∀ (st : LCDState) (line ic : Nat) (st' : LCDState) (tr : List Event),
      messageLoop st line ic cs = Outcome.ok st' tr →
      st'.display_mode = st.display_mode ∧ st'.column_align = st.column_align ∧
      st'.message = st.message ∧
      dataBytes tr = (cs.filter (fun x => x != '\n')).map (fun x => x.toNat % 256) := by
  induction cs with
  | nil =>
    intro st line ic st' tr h
    simp only [messageLoop] at h
    rw [Outcome.ok.injEq] at h
    rw [← h.1, ← h.2]
    exact ⟨rfl, rfl, rfl, rfl⟩
  | cons c cs ih =>
    intro st line ic st' tr h
    simp only [messageLoop] at h
    obtain ⟨st1, tr1, tr2, h1, h2, rfl⟩ := Outcome.bind_eq_ok _ _ _ _ h
    have hst1 : st1.display_mode = st.display_mode ∧ st1.column_align = st.column_align ∧
        st1.message = st.message ∧ dataBytes tr1 = [] := by
      by_cases hic : ic = 0
      · rw [if_pos hic] at h1
        split at h1
        · exact cursor_position_ok_fields _ _ _ _ _ h1
        · exact cursor_position_ok_fields _ _ _ _ _ h1
      · rw [if_neg hic] at h1
        rw [Outcome.ok.injEq] at h1
        rw [← h1.1, ← h1.2]
        exact ⟨rfl, rfl, rfl, rfl⟩
    try dsimp only at h2
    by_cases hc : c = '\n'
    · rw [if_pos hc] at h2
      obtain ⟨st2, tr2a, tr2b, h2a, h2b, rfl⟩ := Outcome.bind_eq_ok _ _ _ _ h2
      try dsimp only at h2b
      have hst2 := cursor_position_ok_fields _ _ _ _ _ h2a
      obtain ⟨ih1, ih2, ih3, ih4⟩ := ih st2 (line + 1) _ st' tr2b h2b
      refine ⟨?_, ?_, ?_, ?_⟩
      · rw [ih1, hst2.1, hst1.1]
      · rw [ih2, hst2.2.1, hst1.2.1]
      · rw [ih3, hst2.2.2.1, hst1.2.2.1]
      · rw [dataBytes_append, dataBytes_append, hst1.2.2.2, hst2.2.2.2, ih4, hc]
        simp
    · rw [if_neg hc] at h2
      obtain ⟨st2, tr2a, tr2b, h2a, h2b, rfl⟩ := Outcome.bind_eq_ok _ _ _ _ h2
      try dsimp only at h2b
      rw [Outcome.ok.injEq] at h2a
      obtain ⟨h2a1, h2a2⟩ := h2a
      rw [← h2a1] at h2b
      obtain ⟨ih1, ih2, ih3, ih4⟩ := ih st1 line _ st' tr2b h2b
      refine ⟨by rw [ih1, hst1.1], by rw [ih2, hst1.2.1], by rw [ih3, hst1.2.2.1], ?_⟩
      rw [dataBytes_append, ← h2a2, dataBytes_append, hst1.2.2.2, ih4]
      have hone : dataBytes [Event.write8 (c.toNat % 256) true] = [c.toNat % 256] := rfl
      rw [hone]
      simp [hc]

theorem messageLoop_not_err (cs : List Char) :
    ∀ (st : LCDState) (line ic : Nat) (st' : LCDState) (m : String) (tr : List Event),
      messageLoop st line ic cs ≠ Outcome.err st' m tr := by
  induction cs with
  | nil =>
    intro st line ic st' m tr h
    simp [messageLoop] at h
  | cons c cs ih =>
    intro st line ic st' m tr h
    simp only [messageLoop] at h
    rcases Outcome.bind_eq_err _ _ _ _ _ h with ⟨st1, tr1, tr2, h1, h2, rfl⟩ | h1
    · try dsimp only at h2
      by_cases hc : c = '\n'
      · rw [if_pos hc] at h2
        rcases Outcome.bind_eq_err _ _ _ _ _ h2 with ⟨st2, tr2a, tr2b, h2a, h2b, rfl⟩ | h2a
        · try dsimp only at h2b
          exact ih st2 (line + 1) _ st' m tr2b h2b
        · exact cursor_position_not_err _ _ _ _ _ _ h2a
      · rw [if_neg hc] at h2
        rcases Outcome.bind_eq_err _ _ _ _ _ h2 with ⟨st2, tr2a, tr2b, h2a, h2b, rfl⟩ | h2a
        · try dsimp only at h2b
          rw [Outcome.ok.injEq] at h2a
          rw [← h2a.1] at h2b
          exact ih st1 line _ st' m tr2b h2b
        · exact Outcome.noConfusion h2a
    · by_cases hic : ic = 0
      · rw [if_pos hic] at h1
        split at h1
        · exact cursor_position_not_err _ _ _ _ _ _ h1
        · exact cursor_position_not_err _ _ _ _ _ _ h1
      · rw [if_neg hic] at h1
        exact Outcome.noConfusion h1

theorem message_display_mode (st : LCDState) (s : String) (st' : LCDState) (tr : List Event)
    (h : message st s = Outcome.ok st' tr) : st'.display_mode = st.display_mode := by
  simp only [message] at h
  obtain ⟨st1, tr1, tr2, h1, h2, rfl⟩ := Outcome.bind_eq_ok _ _ _ _ h
  try dsimp only at h2
  rw [Outcome.ok.injEq] at h2
  have hdm := (messageLoop_ok_inv s.data _ _ _ _ _ h1).1
  rw [← h2.1]
  exact hdm

theorem messageLoop_eq_LTR (cs : List Char) :
    ∀ (st : LCDState) (line ic : Nat), st.display_mode &&& LCD_ENTRYLEFT > 0 →
      messageLoop st line ic cs = messageLoopLTR st line ic cs := by
  induction cs with
  | nil => intro st line ic _; rfl
  | cons c cs ih =>
    intro st line ic hdm
    have hpos :
        (if ic = 0 then
          (if st.display_mode &&& LCD_ENTRYLEFT > 0 then cursor_position st st.column line
           else cursor_position st (st.columns - 1 - st.column) line)
         else Outcome.ok st []) =
        (if ic = 0 then cursor_position st st.column line else Outcome.ok st []) := by
      by_cases hic : ic = 0 <;> simp [hic, hdm]
    have key : ∀ (st1 : LCDState) (tr1 : List Event),
        (if ic = 0 then cursor_position st st.column line else Outcome.ok st []) =
          Outcome.ok st1 tr1 →
        st1.display_mode &&& LCD_ENTRYLEFT > 0 := by
      intro st1 tr1 h1
      by_cases hic : ic = 0
      · rw [if_pos hic] at h1
        rw [(cursor_position_ok_fields _ _ _ _ _ h1).1]
        exact hdm
      · rw [if_neg hic] at h1
        rw [Outcome.ok.injEq] at h1
        rw [← h1.1]
        exact hdm
    simp only [messageLoop, messageLoopLTR, hpos]
    refine Outcome.bind_congr _ _ _ ?_
    intro st1 tr1 hP
    have hdm1 := key st1 tr1 hP
    by_cases hc : c = '\n'
    · rw [if_pos hc, if_pos hc, if_pos hdm1]
      refine Outcome.bind_congr _ _ _ ?_
      intro st2 tr2 hP2
      refine ih st2 (line + 1) _ ?_
      rw [(cursor_position_ok_fields _ _ _ _ _ hP2).1]
      exact hdm1
    · rw [if_neg hc, if_neg hc]
      refine Outcome.bind_congr _ _ _ ?_
      intro st2 tr2 hP2
      rw [Outcome.ok.injEq] at hP2
      refine ih st2 line _ ?_
      rw [← hP2.1]
      exact hdm1

theorem applyOp_display_mode (st : LCDState) (op : Op) (st' : LCDState) (tr : List Event)
    (h : applyOp st op = Outcome.ok st' tr) : st'.display_mode = st.display_mode := by
  cases op with
  | clearOp =>
    rw [show applyOp st Op.clearOp =
      Outcome.ok { st with row := 0, column := 0 } (write_command LCD_CLEARDISPLAY) from rfl] at h
    rw [Outcome.ok.injEq] at h
    rw [← h.1]
  | homeOp =>
    rw [show applyOp st Op.homeOp =
      Outcome.ok { st with row := 0, column := 0 } (write_command LCD_RETURNHOME) from rfl] at h
    rw [Outcome.ok.injEq] at h
    rw [← h.1]
  | setColorOp r g b =>
    simp only [applyOp, set_color] at h
    rw [Outcome.ok.injEq] at h
    rw [← h.1]
  | setCursorOp col row =>
    simp only [applyOp, set_cursor] at h
    split at h
    · exact Outcome.noConfusion h
    · split at h
      · exact Outcome.noConfusion h
      · rw [Outcome.ok.injEq] at h
        rw [← h.1]
  | setBacklightOp f =>
    cases f with
    | false =>
      rw [show applyOp st (Op.setBacklightOp false) =
        Outcome.ok { st with backlight := false }
          [Event.setDirection LCD_BACKLIGHT false] from rfl] at h
      rw [Outcome.ok.injEq] at h
      rw [← h.1]
    | true =>
      rw [show applyOp st (Op.setBacklightOp true) =
        Outcome.ok { st with backlight := true }
          [Event.setDirection LCD_BACKLIGHT true] from rfl] at h
      rw [Outcome.ok.injEq] at h
      rw [← h.1]
  | cursorPositionOp col row =>
    exact (cursor_position_ok_fields _ _ _ _ _ h).1
  | messageOp s =>
    exact message_display_mode _ _ _ _ h

theorem reachable_display_mode (st : LCDState) (h : Reachable st) :
    st.display_mode = LCD_ENTRYLEFT ||| LCD_ENTRYSHIFTDECREMENT := by
  induction h with
  | constructed c l st tr hnew =>
    rw [new_ok] at hnew
    rw [Outcome.ok.injEq] at hnew
    rw [← hnew.1]
    rfl
  | step st st' op tr _ hstep ih =>
    rw [applyOp_display_mode _ _ _ _ hstep, ih]

theorem row_offsets_get?_of_lt (n : Nat) (h : n < 4) :
    LCD_ROW_OFFSETS.get? n = some (LCD_ROW_OFFSETS.getD n 0) := by
  interval_cases n <;> rfl

/-- C1: the claim says `new(columns, lines)` with `lines > 4` fails with a
construction-time validation error, so no cursor-positioning operation
ever indexes the row-offset table at an index ≥ 4.  The code has no such
check: `new 16 5` succeeds, and both cursor-positioning operations then
reach the 4-entry offset table at index 4 — a Rust out-of-bounds panic —
contradicting the spec's own no-abort error policy (§7). -/
theorem lines_gt_four_not_rejected_and_offset_table_overrun :
    new 16 5 = Outcome.ok (mkState 16 5) new_trace ∧
    (mkState 16 5).lines = 5 ∧
    set_cursor (mkState 16 5) 0 4 = Outcome.panic [] ∧
    cursor_position (mkState 16 5) 0 9 = Outcome.panic [] :=
  ⟨new_ok 16 5, by decide, by decide, by decide⟩

/-- C2: for every driver state and every `row ≥ lines`, the strict
`set_cursor` returns the validation error, performs no expander write (the
trace is empty) and leaves the state — in particular the tracked
`row`/`column` — unchanged (the `err` outcome carries the caller's state). -/
theorem set_cursor_invalid_row_errors_no_write (st : LCDState) (col row : Nat)
    (h : row ≥ st.lines) :
    set_cursor st col row =
      Outcome.err st
        ("Row " ++ toString row ++ " is invalid for a " ++ toString st.lines ++ "-line display")
        [] := by
  unfold set_cursor
  rw [if_pos h]

theorem set_cursor_invalid_row_errors_no_write_witness :
    (5 : Nat) ≥ (mkState 16 2).lines ∧
    set_cursor (mkState 16 2) 0 5 =
      Outcome.err (mkState 16 2) "Row 5 is invalid for a 2-line display" [] := by
  refine ⟨by decide, ?_⟩
  rw [ set_cursor_invalid_row_errors_no_write (mkState 16 2) 0 5 (by decide)]
  rfl

/-- C3 counterexample: the claim says a successful `set_cursor(column, row)`
issues a set-DDRAM command whose address operand equals
`column + rowOffset[row]`.  At `column = 256`, `row = 0` on a 16×2 display
the call succeeds but the issued command byte is `0x80 ||| 0` (the `as u8`
cast truncated the column), not `0x80 ||| 256`. -/
theorem set_cursor_address_operand_truncates :
    set_cursor (mkState 16 2) 256 0 =
      Outcome.ok { mkState 16 2 with row := 0, column := 256 }
        [Event.write8 (LCD_SETDDRAMADDR ||| ((256 % 256 + 0x00) % 256)) false] ∧
    LCD_SETDDRAMADDR ||| ((256 % 256 + 0x00) % 256) ≠ LCD_SETDDRAMADDR ||| (256 + 0x00) := by
  decide

/-- C3 (amended): for every column and every `row < lines`, a successful
`set_cursor(column, row)` issues exactly one set-DDRAM-address command
whose address operand equals `(column mod 256 + rowOffset[row]) mod 256`
(the `column as u8` truncation and `u8` wraparound of the source), and
afterwards the tracked cursor equals exactly `(column, row)`. -/
theorem set_cursor_valid_row_address_and_cursor (st : LCDState) (col row : Nat)
    (h : row < st.lines) (st' : LCDState) (tr : List Event)
    (hok : set_cursor st col row = Outcome.ok st' tr) :
    tr = [Event.write8 (LCD_SETDDRAMADDR |||
            ((col % 256 + LCD_ROW_OFFSETS.getD row 0) % 256)) false] ∧
    st' = { st with row := row, column := col } := by
  have hge : ¬ row ≥ st.lines := by omega
  by_cases h4 : row < 4
  · interval_cases row <;>
      simp_all [set_cursor, write_command, LCD_ROW_OFFSETS]
  · obtain ⟨k, rfl⟩ : ∃ k, row = k + 4 := ⟨row - 4, by omega⟩
    simp [set_cursor, hge] at hok

theorem set_cursor_valid_row_address_and_cursor_witness :
    (1 : Nat) < (mkState 16 2).lines ∧
    set_cursor (mkState 16 2) 5 1 =
      Outcome.ok { mkState 16 2 with row := 1, column := 5 }
        [Event.write8 0xC5 false] ∧
    [Event.write8 (0xC5 : Nat) false] =
      [Event.write8 (LCD_SETDDRAMADDR ||| ((5 % 256 + LCD_ROW_OFFSETS.getD 1 0) % 256)) false] := by
  refine ⟨by decide, by decide, ?_⟩
  have h := set_cursor_valid_row_address_and_cursor (mkState 16 2) 5 1 (by decide)
    { mkState 16 2 with row := 1, column := 5 } [Event.write8 0xC5 false] (by decide)
  exact h.1

/-- C4: for all `r`, `g`, `b` in 0–100, `set_color` drives each channel pin
low (on) exactly when that channel's value is strictly greater than 1 and
high (off) otherwise; the resulting pin writes depend only on those three
comparisons, so `set_color 2 0 2` and `set_color 100 0 100` produce the
identical pin output: red on, green off, blue on. -/
theorem set_color_threshold_pins (st : LCDState) (r g b r' g' b' : Nat)
    (hr : r ≤ 100) (hg : g ≤ 100) (hb : b ≤ 100)
    (hr' : r' ≤ 100) (hg' : g' ≤ 100) (hb' : b' ≤ 100)
    (er : (r > 1) = (r' > 1)) (eg : (g > 1) = (g' > 1)) (eb : (b > 1) = (b' > 1)) :
    set_color st r g b =
      Outcome.ok { st with color_value := [r, g, b] }
        [Event.latch RGB_RED (if r > 1 then Level.low else Level.high),
         Event.latch RGB_GREEN (if g > 1 then Level.low else Level.high),
         Event.latch RGB_BLUE (if b > 1 then Level.low else Level.high)] ∧
    traceOf (set_color st r g b) = traceOf (set_color st r' g' b') ∧
    traceOf (set_color st 2 0 2) = traceOf (set_color st 100 0 100) ∧
    traceOf (set_color st 2 0 2) =
      [Event.latch RGB_RED Level.low, Event.latch RGB_GREEN Level.high,
       Event.latch RGB_BLUE Level.low] := by
  refine ⟨rfl, ?_, rfl, rfl⟩
  simp only [set_color, traceOf, er, eg, eb]

theorem set_color_threshold_pins_witness :
    traceOf (set_color (mkState 16 2) 2 0 2) = traceOf (set_color (mkState 16 2) 100 0 100) :=
  (set_color_threshold_pins (mkState 16 2) 2 0 2 100 0 100
    (by decide) (by decide) (by decide) (by decide) (by decide) (by decide)
    (by decide) (by decide) (by decide)).2.1

/-- C5: on a freshly constructed 16×2 driver (left-to-right entry mode,
column-alignment disabled, tracked cursor at (0,0)),
`message "Hi\nBye"` issues the set-DDRAM-address command for (column 0,
row 0) — byte `0x80` — before the data bytes of `"Hi"`, then the
set-DDRAM-address command for (column 0, row 1) — byte `0x80 ||| 0x40` —
before the data bytes of `"Bye"`, and no other command in between: the
full expander trace is exactly these seven writes. -/
theorem message_hi_bye_address_sequence :
    message (mkState 16 2) "Hi\nBye" =
      Outcome.ok { mkState 16 2 with message := "Hi\nBye" }
        [Event.write8 (LCD_SETDDRAMADDR ||| 0x00) false,
         Event.write8 72 true, Event.write8 105 true,
         Event.write8 (LCD_SETDDRAMADDR ||| 0x40) false,
         Event.write8 66 true, Event.write8 121 true, Event.write8 101 true] := by
  decide

/-- C7 counterexample: the claim says the clamping `cursor_position` never
fails and always issues the clamped address write.  On a driver constructed
with 5 lines (construction does not reject it — see C1), `cursor_position
0 7` clamps the row to `lines - 1 = 4` and then indexes the 4-entry offset
table out of bounds: a panic, with no write issued and no cursor update. -/
theorem cursor_position_panics_on_five_line_geometry :
    cursor_position (mkState 16 5) 0 7 = Outcome.panic [] := by
  decide

/-- C7 (amended): on any driver whose geometry satisfies `1 ≤ lines ≤ 4`
and `1 ≤ columns` (every supported display), `cursor_position` never
fails: it clamps `column ≥ columns` to `columns - 1` and `row ≥ lines` to
`lines - 1`, issues the one address write for the clamped values, and
updates the tracked cursor to the clamped values. -/
theorem cursor_position_clamps_and_writes (st : LCDState) (col row : Nat)
    (h1 : 1 ≤ st.lines) (h2 : st.lines ≤ 4) (h3 : 1 ≤ st.columns) :
    cursor_position st col row =
      Outcome.ok
        { st with
            row := if row ≥ st.lines then st.lines - 1 else row,
            column := if col ≥ st.columns then st.columns - 1 else col }
        (write_command (LCD_SETDDRAMADDR |||
          (((if col ≥ st.columns then st.columns - 1 else col) % 256 +
            LCD_ROW_OFFSETS.getD (if row ≥ st.lines then st.lines - 1 else row) 0) % 256))) := by
  have hrow : (if row ≥ st.lines then st.lines - 1 else row) < 4 := by
    split <;> omega
  simp only [cursor_position]
  rw [row_offsets_get?_of_lt _ hrow]

theorem cursor_position_clamps_and_writes_witness :
    cursor_position (mkState 16 2) 99 7 =
      Outcome.ok { mkState 16 2 with row := 1, column := 15 }
        (write_command (LCD_SETDDRAMADDR ||| ((15 % 256 + 0x40) % 256))) :=
  (cursor_position_clamps_and_writes (mkState 16 2) 99 7
    (by decide) (by decide) (by decide)).trans (by decide)

/-- C6: after every successful `message` call — for every input string and
every prior driver state — the tracked cursor is reset to (0,0). -/
theorem message_resets_cursor_to_origin (st : LCDState) (s : String) (st' : LCDState)
    (tr : List Event) (h : message st s = Outcome.ok st' tr) :
    st'.row = 0 ∧ st'.column = 0 := by
  simp only [message] at h
  obtain ⟨st1, tr1, tr2, h1, h2, rfl⟩ := Outcome.bind_eq_ok _ _ _ _ h
  try dsimp only at h2
  rw [Outcome.ok.injEq] at h2
  rw [← h2.1]
  exact ⟨rfl, rfl⟩

theorem message_resets_cursor_to_origin_witness :
    ({ mkState 16 2 with message := "Hi" } : LCDState).row = 0 ∧
    ({ mkState 16 2 with message := "Hi" } : LCDState).column = 0 :=
  message_resets_cursor_to_origin (mkState 16 2) "Hi"
    { mkState 16 2 with message := "Hi" }
    [Event.write8 128 false, Event.write8 72 true, Event.write8 105 true] (by decide)

/-- C8: every driver state reachable through the public interface keeps the
left-to-right bit `LCD_ENTRYLEFT` set in `display_mode` (it is set once at
initialization and no public operation writes the field again), so
`message` coincides with the left-to-right-only rendition `messageLTR`:
the right-to-left branches of the source loop are never taken. -/
theorem display_mode_entryleft_invariant_ltr (st : LCDState) (h : Reachable st) :
    st.display_mode &&& LCD_ENTRYLEFT > 0 ∧
    (∀ s, message st s = messageLTR st s) := by
  have hdm : st.display_mode = LCD_ENTRYLEFT ||| LCD_ENTRYSHIFTDECREMENT :=
    reachable_display_mode st h
  constructor
  · rw [hdm]; decide
  · intro s
    have hbit : ({ st with message := s } : LCDState).display_mode &&& LCD_ENTRYLEFT > 0 := by
      show st.display_mode &&& LCD_ENTRYLEFT > 0
      rw [hdm]; decide
    simp only [message, messageLTR]
    rw [messageLoop_eq_LTR s.data { st with message := s } _ 0 hbit]

theorem display_mode_entryleft_invariant_ltr_witness :
    (mkState 16 2).display_mode &&& LCD_ENTRYLEFT > 0 ∧
    message (mkState 16 2) "Hi" = messageLTR (mkState 16 2) "Hi" := by
  have h := display_mode_entryleft_invariant_ltr (mkState 16 2)
    (Reachable.constructed 16 2 (mkState 16 2) new_trace (new_ok 16 2))
  exact ⟨h.1, h.2 "Hi"⟩

/-- C9: `message` never rejects a character with an error (its only error
source would be validation, and the clamping cursor path has none), and on
every successful run the data bytes sent to the controller are exactly the
non-newline characters' Unicode code points reduced modulo 256 (the Rust
`char as u8` truncation), in order; characters above U+00FF are silently
truncated. -/
theorem message_data_bytes_are_truncated_code_points (st : LCDState) (s : String) :
    (∀ st' m tr, message st s ≠ Outcome.err st' m tr) ∧
    (∀ st' tr, message st s = Outcome.ok st' tr →
      dataBytes tr = (s.data.filter (fun x => x != '\n')).map (fun x => x.toNat % 256)) := by
  constructor
  · intro st' m tr h
    simp only [message] at h
    rcases Outcome.bind_eq_err _ _ _ _ _ h with ⟨st1, tr1, tr2, h1, h2, rfl⟩ | h1
    · try dsimp only at h2
      exact Outcome.noConfusion h2
    · exact messageLoop_not_err _ _ _ _ _ _ _ h1
  · intro st' tr h
    simp only [message] at h
    obtain ⟨st1, tr1, tr2, h1, h2, rfl⟩ := Outcome.bind_eq_ok _ _ _ _ h
    try dsimp only at h2
    rw [Outcome.ok.injEq] at h2
    have h4 := (messageLoop_ok_inv s.data _ _ _ _ _ h1).2.2.2
    rw [dataBytes_append, ← h2.2, h4]
    simp [dataBytes]

theorem message_data_bytes_are_truncated_code_points_witness :
    dataBytes [Event.write8 128 false, Event.write8 65 true, Event.write8 178 true] =
      ("Aβ".data.filter (fun x => x != '\n')).map (fun x => x.toNat % 256) ∧
    ("Aβ".data.filter (fun x => x != '\n')).map (fun x => x.toNat % 256) = [65, 178] := by
  refine ⟨?_, by decide⟩
  exact (message_data_bytes_are_truncated_code_points (mkState 16 2) "Aβ").2
    { mkState 16 2 with message := "Aβ" }
    [Event.write8 128 false, Event.write8 65 true, Event.write8 178 true] (by decide)

/-- C10: `message` on the empty string performs no expander write at all,
succeeds, overwrites the stored `message` field with the empty string, and
resets the tracked cursor to (0,0), from any prior driver state. -/
theorem message_empty_no_writes (st : LCDState) :
    message st "" = Outcome.ok { st with message := "", column := 0, row := 0 } [] := by
  rfl

end CharLcd
